import Mathlib

/-!
Shallow embedding of the GL33CG TCP ingestion gateway: the frame codec and
acknowledgment generator of src/utils/protocolParser.ts and the
session-handling logic of src/server.ts.  JavaScript strings are modelled as
`List Char` and the relevant `String.prototype` operations are given their
JavaScript semantics (first-occurrence `replace`, empty-fragment-keeping
`split`, truthiness of optional strings, ASCII-range `trim`).
-/

/-- Strings are modelled as lists of characters. -/
abbrev Str := List Char

/-- Helper to write `Str` literals. -/
def strL (s : String) : Str := s.toList

/-- JS `String.prototype.startsWith`. -/
def strStartsWith : Str → Str → Bool
  | _, [] => true
  | [], _ :: _ => false
  | c :: s, p :: ps => c = p && strStartsWith s ps

/-- JS `String.prototype.endsWith`. -/
def strEndsWith (s suffix : Str) : Bool :=
  strStartsWith s.reverse suffix.reverse

/-- JS whitespace characters relevant to `trim` (ASCII range; the protocol is ASCII). -/
def wsChar (c : Char) : Bool :=
  c = ' ' || c = '\t' || c = '\n' || c = '\r' || c = '\x0b' || c = '\x0c'

/-- Remove trailing whitespace. -/
def trimEnd (s : Str) : Str := (List.dropWhile wsChar s.reverse).reverse

/-- JS `String.prototype.trim`. -/
def jsTrim (s : Str) : Str := trimEnd (List.dropWhile wsChar s)

/-- Accumulator worker for `jsSplit`. -/
def splitAux (sep : Char) : Str → Str → List Str
  | [], acc => [acc.reverse]
  | c :: rest, acc =>
    if c = sep then acc.reverse :: splitAux sep rest []
    else splitAux sep rest (c :: acc)

/-- JS `String.prototype.split` with a one-character plain-string separator:
keeps empty fragments, always returns at least one fragment. -/
def jsSplit (sep : Char) (s : Str) : List Str := splitAux sep s []

/-- JS `String.prototype.replace` with a plain-string pattern: replaces the
first occurrence only, returns the string unchanged when the pattern is absent. -/
def replaceFirst (pat repl : Str) : Str → Str
  | [] => []
  | c :: rest =>
    if strStartsWith (c :: rest) pat then repl ++ List.drop pat.length (c :: rest)
    else c :: replaceFirst pat repl rest

/-- JS `String.prototype.includes`. -/
def containsSub : Str → Str → Bool
  | [], pat => pat.isEmpty
  | c :: t, pat => strStartsWith (c :: t) pat || containsSub t pat

/-- JS string fallback `a || b` (empty strings are falsy). -/
def jsOr (a b : Str) : Str := if a.isEmpty then b else a

/-- JS truthiness of an optional string (`undefined` and `""` are falsy). -/
def optTruthy : Option Str → Bool
  | none => false
  | some s => !s.isEmpty

/-- Number of occurrences of a character in a string. -/
def countChar (c : Char) (s : Str) : Nat := (s.filter (fun x => x = c)).length

/-- FrameType enum (src/types/protocol.ts). -/
inductive FrameTy
  | ACK | RESP | BUFF | SACK
deriving DecidableEq

/-- BaseMessage interface (src/types/protocol.ts). -/
structure BaseMessage where
  frameType : FrameTy
  commandWord : Str
  fullProtocolVersion : Str
  uniqueId : Str
  deviceName : Str
  sendTime : Str
  countNumber : Str
  rawMessage : Str
deriving DecidableEq

/-- ParseResult interface (src/types/protocol.ts): a failure carries the error
text; a success carries the parsed message, the `needsAck` flag and the
`ackMessage` text, exactly as the three success-return sites populate them. -/
inductive ParseResult
  | failure (error : Str)
  | ok (message : BaseMessage) (needsAck : Bool) (ackMessage : Str)
deriving DecidableEq

/-- Whether a ParseResult is a success. -/
def ParseResult.isOk : ParseResult → Bool
  | .failure _ => false
  | .ok _ _ _ => true

/-- PROTOCOL_CONSTANTS.TAIL_CHAR. -/
def tailChar : Char := '$'

/-- The `+ACK:` frame-type token. -/
def ackHead : Str := strL "+ACK:"

/-- The `+RESP:` frame-type token. -/
def respHead : Str := strL "+RESP:"

/-- The `+BUFF:` frame-type token. -/
def buffHead : Str := strL "+BUFF:"

/-- The `+SACK:` frame-type token. -/
def sackHead : Str := strL "+SACK:"

/-- CommandType.GTHBD, the heartbeat command word. -/
def gthbd : Str := strL "GTHBD"

/-- Default sequence-number text used by `generateSackMessage`. -/
def zeros4 : Str := strL "0000"

/-- Error text of parseMessage when the terminator is missing. -/
def errNoTail : Str := strL "Mensagem não termina com $"

/-- Error text of parseMessage for an unknown frame-type token. -/
def errUnknownFrame : Str := strL "Tipo de frame não reconhecido"

/-- Error text of parseMessage's default switch branch (reached for SACK). -/
def errUnsupportedFrame : Str := strL "Tipo de frame não suportado: +SACK"

/-- Error text of parseAckMessage for fewer than 6 fields. -/
def errBadAck : Str := strL "Mensagem ACK inválida"

/-- Error text of parseRespMessage for fewer than 6 fields. -/
def errBadResp : Str := strL "Mensagem RESP inválida"

/-- ProtocolParser.identifyFrameType. -/
def identifyFrameType (message : Str) : Option FrameTy :=
  if strStartsWith message ackHead then some FrameTy.ACK
  else if strStartsWith message respHead then some FrameTy.RESP
  else if strStartsWith message buffHead then some FrameTy.BUFF
  else if strStartsWith message sackHead then some FrameTy.SACK
  else none

/-- ProtocolParser.generateSackMessage: the three parameters are optional and
the long form is chosen only when both `commandWord` and `protocolVersion`
are truthy (present and non-empty). -/
def generateSackMessage (commandWord protocolVersion countNumber : Option Str) : Str :=
  if optTruthy commandWord && optTruthy protocolVersion then
    sackHead ++ commandWord.getD [] ++ [','] ++ List.take 6 (protocolVersion.getD [])
      ++ [','] ++ jsOr (countNumber.getD []) zeros4 ++ [tailChar]
  else
    sackHead ++ jsOr (countNumber.getD []) zeros4 ++ [tailChar]

/-- ProtocolParser.parseAckMessage. -/
def parseAckMessage (message : Str) : ParseResult :=
  let parts := jsSplit ',' (replaceFirst [tailChar] [] (List.drop 5 message))
  if parts.length < 6 then ParseResult.failure errBadAck
  else
    let parsedMessage : BaseMessage :=
      { frameType := FrameTy.ACK
        commandWord := jsOr (parts.getD 0 []) []
        fullProtocolVersion := jsOr (parts.getD 1 []) []
        uniqueId := jsOr (parts.getD 2 []) []
        deviceName := jsOr (parts.getD 3 []) []
        sendTime := jsOr (parts.getD 4 []) []
        countNumber := jsOr (parts.getD 5 []) []
        rawMessage := message }
    if parsedMessage.commandWord = gthbd then
      ParseResult.ok parsedMessage true
        (generateSackMessage (some parsedMessage.commandWord)
          (some parsedMessage.fullProtocolVersion) (some parsedMessage.countNumber))
    else
      ParseResult.ok parsedMessage false []

/-- ProtocolParser.parseRespMessage: first four fields positional, last two
fields anchored from the end of the split. -/
def parseRespMessage (message : Str) : ParseResult :=
  let parts := jsSplit ',' (replaceFirst [tailChar] [] (List.drop 6 message))
  if parts.length < 6 then ParseResult.failure errBadResp
  else
    let parsedMessage : BaseMessage :=
      { frameType := FrameTy.RESP
        commandWord := jsOr (parts.getD 0 []) []
        fullProtocolVersion := jsOr (parts.getD 1 []) []
        uniqueId := jsOr (parts.getD 2 []) []
        deviceName := jsOr (parts.getD 3 []) []
        sendTime := jsOr (parts.getD (parts.length - 2) []) []
        countNumber := jsOr (parts.getD (parts.length - 1) []) []
        rawMessage := message }
    ParseResult.ok parsedMessage true
      (generateSackMessage none none (some parsedMessage.countNumber))

/-- ProtocolParser.parseBuffMessage: substitute the first `+BUFF:` occurrence
with `+RESP:`, parse as RESP, then restore the frame type and raw text. -/
def parseBuffMessage (message : Str) : ParseResult :=
  let respMessage := replaceFirst buffHead respHead message
  match parseRespMessage respMessage with
  | ParseResult.ok b na am =>
      ParseResult.ok { b with frameType := FrameTy.BUFF, rawMessage := message } na am
  | ParseResult.failure e => ParseResult.failure e

/-- ProtocolParser.parseMessage: trim, require the terminator, identify the
frame type, dispatch; SACK falls into the unsupported default branch. -/
def parseMessage (rawMessage : Str) : ParseResult :=
  let cleanMessage := jsTrim rawMessage
  if strEndsWith cleanMessage [tailChar] then
    match identifyFrameType cleanMessage with
    | some FrameTy.ACK => parseAckMessage cleanMessage
    | some FrameTy.RESP => parseRespMessage cleanMessage
    | some FrameTy.BUFF => parseBuffMessage cleanMessage
    | some FrameTy.SACK => ParseResult.failure errUnsupportedFrame
    | none => ParseResult.failure errUnknownFrame
  else ParseResult.failure errNoTail

/-- ProtocolParser.isMessageComplete. -/
def isMessageComplete (data : Str) : Bool := containsSub data [tailChar]

/-- The body of extractMessages' push loop: a fragment whose trim is non-empty
is emitted as the trimmed fragment with the tail character appended. -/
def emitPart (p : Str) : Option Str :=
  if jsTrim p = [] then none else some (jsTrim p ++ [tailChar])

/-- The trailing-empty-fragment pop of extractMessages: when the last split
fragment is the empty string it is removed. -/
def dropTrailingEmpty (parts : List Str) : List Str :=
  if parts.getLast? = some [] then parts.dropLast else parts

/-- ProtocolParser.extractMessages: split on the terminator, drop a trailing
empty fragment, then emit every fragment with a non-empty trim. -/
def extractMessages (buffer : Str) : List Str :=
  (dropTrailingEmpty (jsSplit tailChar buffer)).filterMap emitPart

/-- ConnectedClient interface (src/types/protocol.ts), without the socket
handle; timestamps are abstract Nat instants. -/
structure ConnectedClient where
  imei : Option Str
  deviceName : Option Str
  lastHeartbeat : Nat
  connected : Nat
  messageCount : Nat
  isAlive : Bool
deriving DecidableEq

/-- GL33CGTcpServer.isHttpHealthCheck. -/
def isHttpHealthCheck (data : Str) : Bool :=
  containsSub data (strL "HTTP/") || containsSub data (strL "GET ")
    || containsSub data (strL "HEAD ") || containsSub data (strL "POST ")
    || containsSub data (strL "User-Agent:")

/-- GL33CGTcpServer.processMessage, restricted to its effect on the client
record and the SACK it sends: a failed parse leaves the client untouched and
sends nothing; a successful parse increments messageCount, sets imei and
deviceName once (first truthy identifier wins), updates lastHeartbeat on an
ACK heartbeat, and sends the ack text when enableSack, needsAck and a truthy
ackMessage all hold.  `now` is the current instant. -/
def processMessageFull (enableSack : Bool) (now : Nat) (msg : Str)
    (c : ConnectedClient) : ConnectedClient × Option Str :=
  match parseMessage msg with
  | ParseResult.failure _ => (c, none)
  | ParseResult.ok m needsAck ackMessage =>
    let c1 := { c with messageCount := c.messageCount + 1 }
    let c2 :=
      if !m.uniqueId.isEmpty && !optTruthy c1.imei then
        { c1 with imei := some m.uniqueId, deviceName := some m.deviceName }
      else c1
    let c3 :=
      if m.frameType = FrameTy.ACK ∧ m.commandWord = gthbd then
        { c2 with lastHeartbeat := now }
      else c2
    (c3, if enableSack && needsAck && !ackMessage.isEmpty then some ackMessage else none)

/-- The per-buffer frame loop of GL33CGTcpServer.handleClientData: process the
extracted messages in order, threading the client record and collecting the
SACKs sent. -/
def processMessages (enableSack : Bool) (now : Nat) :
    List Str → ConnectedClient → ConnectedClient × List Str
  | [], c => (c, [])
  | m :: ms, c =>
    let step := processMessageFull enableSack now m c
    let rest := processMessages enableSack now ms step.1
    (rest.1, step.2.toList ++ rest.2)

/-- GL33CGTcpServer.handleClientData, restricted to which frame texts it hands
to processMessage: the received bytes are trimmed; a buffer containing no
terminator at all is skipped entirely; otherwise extractMessages supplies the
frames.  No leftover bytes are carried to the next read. -/
def handleClientDataMessages (data : Str) : List Str :=
  let message := jsTrim data
  if isMessageComplete message then extractMessages message else []

/-- Observable outcome of GL33CGTcpServer.handleConnection together with the
first data event: the registry afterwards, whether a TCP session was created,
whether an HTTP health-check reply was written, the frame texts handed to
processMessage, and the SACKs sent. -/
structure ConnOutcome where
  registry : List (Str × ConnectedClient)
  sessionCreated : Bool
  httpReplied : Bool
  processed : List Str
  acks : List Str
deriving DecidableEq

/-- GL33CGTcpServer.handleConnection followed by the first data event: at
capacity the socket is ended before any data handler is installed; an HTTP
probe gets a reply and no session; otherwise setupTcpClient registers a fresh
client and handleClientData processes the first chunk. -/
def handleConnectionFirstData (enableSack : Bool) (maxConnections : Nat) (now : Nat)
    (reg : List (Str × ConnectedClient)) (clientId : Str) (data : Str) : ConnOutcome :=
  if maxConnections ≤ reg.length then
    { registry := reg, sessionCreated := false, httpReplied := false
      processed := [], acks := [] }
  else if isHttpHealthCheck data then
    { registry := reg, sessionCreated := false, httpReplied := true
      processed := [], acks := [] }
  else
    let c0 : ConnectedClient :=
      { imei := none, deviceName := none, lastHeartbeat := now
        connected := now, messageCount := 0, isAlive := true }
    let msgs := handleClientDataMessages data
    let res := processMessages enableSack now msgs c0
    { registry := (clientId, res.1) :: reg, sessionCreated := true, httpReplied := false
      processed := msgs, acks := res.2 }

/-- Modelled from the spec sentence for the C9 comparison: decode the text
with its Buff token substituted by the Resp token, then override the kind back
to Buff and the raw text back to the original text. -/
def buffViaRespSpec (m : Str) : ParseResult :=
  match parseRespMessage (respHead ++ List.drop 6 m) with
  | ParseResult.ok b na am =>
      ParseResult.ok { b with frameType := FrameTy.BUFF, rawMessage := m } na am
  | ParseResult.failure e => ParseResult.failure e

/-! ### Helper lemmas about the JavaScript string operations -/

theorem jsOr_nil (a : Str) : jsOr a [] = a := by
  cases a <;> simp [jsOr]

theorem dropWhile_dropWhile (p : Char → Bool) (l : Str) :
    List.dropWhile p (List.dropWhile p l) = List.dropWhile p l := by
  induction l with
  | nil => rfl
  | cons c t ih =>
    cases hp : p c
    · simp [List.dropWhile_cons, hp]
    · simp [List.dropWhile_cons, hp, ih]

theorem dropWhile_head_false (p : Char → Bool) (c : Char) (t : Str)
    (h : List.dropWhile p (c :: t) = c :: t) : p c = false := by
  cases hp : p c
  · rfl
  · rw [List.dropWhile_cons, hp, if_pos rfl] at h
    have hle : (List.dropWhile p t).length ≤ t.length :=
      List.Sublist.length_le (List.dropWhile_sublist p)
    rw [h] at hle
    simp at hle

theorem trimEnd_prefix (d : Str) :
    trimEnd d ++ (List.takeWhile wsChar d.reverse).reverse = d := by
  unfold trimEnd
  rw [← List.reverse_append, List.takeWhile_append_dropWhile wsChar d.reverse,
    List.reverse_reverse]

theorem trimEnd_idem (d : Str) : trimEnd (trimEnd d) = trimEnd d := by
  unfold trimEnd
  rw [List.reverse_reverse, dropWhile_dropWhile]

theorem dropWhile_self_of_prefix (p : Char → Bool) (l t : Str)
    (h : List.dropWhile p (l ++ t) = l ++ t) : List.dropWhile p l = l := by
  cases l with
  | nil => rfl
  | cons c r =>
    have hc : p c = false := dropWhile_head_false p c (r ++ t) h
    simp [List.dropWhile_cons, hc]

theorem jsTrim_dropWhile (s : Str) : List.dropWhile wsChar (jsTrim s) = jsTrim s := by
  have hd : List.dropWhile wsChar (List.dropWhile wsChar s) = List.dropWhile wsChar s :=
    dropWhile_dropWhile wsChar s
  have hp := trimEnd_prefix (List.dropWhile wsChar s)
  show List.dropWhile wsChar (trimEnd (List.dropWhile wsChar s))
      = trimEnd (List.dropWhile wsChar s)
  exact dropWhile_self_of_prefix wsChar (trimEnd (List.dropWhile wsChar s))
    ((List.takeWhile wsChar (List.dropWhile wsChar s).reverse).reverse)
    (by rw [hp]; exact hd)

theorem jsTrim_idem (s : Str) : jsTrim (jsTrim s) = jsTrim s := by
  show trimEnd (List.dropWhile wsChar (jsTrim s)) = jsTrim s
  rw [jsTrim_dropWhile s]
  show trimEnd (trimEnd (List.dropWhile wsChar s)) = _
  rw [trimEnd_idem]
  rfl

theorem mem_dropWhile (p : Char → Bool) (l : Str) (x : Char)
    (h : x ∈ List.dropWhile p l) : x ∈ l :=
  (List.dropWhile_sublist p).mem h

theorem mem_jsTrim (s : Str) (x : Char) (h : x ∈ jsTrim s) : x ∈ s := by
  unfold jsTrim trimEnd at h
  rw [List.mem_reverse] at h
  have h2 := mem_dropWhile wsChar _ _ h
  rw [List.mem_reverse] at h2
  exact mem_dropWhile wsChar _ _ h2

theorem wsChar_tail : wsChar tailChar = false := by decide

theorem jsTrim_append_nonWs (l : Str) (d : Char) (hl : List.dropWhile wsChar l = l)
    (hln : l ≠ []) (hd : wsChar d = false) : jsTrim (l ++ [d]) = l ++ [d] := by
  have h1 : List.dropWhile wsChar (l ++ [d]) = l ++ [d] := by
    cases l with
    | nil => exact absurd rfl hln
    | cons c r =>
      have hc : wsChar c = false := dropWhile_head_false wsChar c r hl
      simp [List.dropWhile_cons, hc]
  show trimEnd (List.dropWhile wsChar (l ++ [d])) = l ++ [d]
  rw [h1]
  show (List.dropWhile wsChar (l ++ [d]).reverse).reverse = l ++ [d]
  rw [show (l ++ [d]).reverse = d :: l.reverse from List.reverse_concat ..]
  simp [List.dropWhile_cons, hd]

theorem splitAux_append_sep (sep : Char) (b : Str) :
    ∀ (a acc : Str), splitAux sep (a ++ sep :: b) acc = splitAux sep a acc ++ jsSplit sep b := by
  intro a
  induction a with
  | nil => intro acc; simp [splitAux, jsSplit]
  | cons c r ih =>
    intro acc
    by_cases hc : c = sep
    · subst hc
      simp [splitAux, ih]
    · simp [splitAux, hc, ih]

theorem jsSplit_append_sep (sep : Char) (a b : Str) :
    jsSplit sep (a ++ sep :: b) = jsSplit sep a ++ jsSplit sep b :=
  splitAux_append_sep sep b a []

theorem splitAux_no_sep (sep : Char) :
    ∀ (s acc : Str), (∀ c ∈ s, ¬ c = sep) → splitAux sep s acc = [acc.reverse ++ s] := by
  intro s
  induction s with
  | nil => intro acc _; simp [splitAux]
  | cons c r ih =>
    intro acc h
    have hc : ¬ c = sep := h c (List.mem_cons_self c r)
    rw [show splitAux sep (c :: r) acc
        = if c = sep then acc.reverse :: splitAux sep r [] else splitAux sep r (c :: acc)
      from rfl]
    rw [if_neg hc, ih (c :: acc) (fun x hx => h x (List.mem_cons_of_mem c hx))]
    simp

theorem jsSplit_no_sep (sep : Char) (s : Str) (h : ∀ c ∈ s, ¬ c = sep) :
    jsSplit sep s = [s] := by
  rw [jsSplit, splitAux_no_sep sep s [] h]
  rfl

theorem splitAux_mem_no_sep (sep : Char) :
    ∀ (s acc : Str), (∀ c ∈ acc, ¬ c = sep) →
      ∀ q ∈ splitAux sep s acc, ∀ c ∈ q, ¬ c = sep := by
  intro s
  induction s with
  | nil =>
    intro acc hacc q hq c hcq
    simp [splitAux] at hq
    subst hq
    exact hacc c (List.mem_reverse.mp hcq)
  | cons d r ih =>
    intro acc hacc q hq c hcq
    by_cases hd : d = sep
    · subst hd
      simp only [splitAux, if_pos rfl] at hq
      rcases List.mem_cons.mp hq with h1 | h2
      · subst h1
        exact hacc c (List.mem_reverse.mp hcq)
      · exact ih [] (by simp) q h2 c hcq
    · simp only [splitAux, if_neg hd] at hq
      refine ih (d :: acc) ?_ q hq c hcq
      intro x hx
      rcases List.mem_cons.mp hx with h1 | h2
      · subst h1; exact hd
      · exact hacc x h2

theorem jsSplit_mem_no_sep (sep : Char) (s : Str) (q : Str) (hq : q ∈ jsSplit sep s)
    (c : Char) (hcq : c ∈ q) : ¬ c = sep :=
  splitAux_mem_no_sep sep s [] (by simp) q hq c hcq

theorem replaceFirst_body_tail (sep : Char) :
    ∀ (body : Str), (∀ c ∈ body, ¬ c = sep) →
      replaceFirst [sep] [] (body ++ [sep]) = body := by
  intro body
  induction body with
  | nil =>
    intro _
    simp [replaceFirst, strStartsWith]
  | cons c r ih =>
    intro h
    have hc : ¬ c = sep := h c (List.mem_cons_self c r)
    have hr := ih (fun x hx => h x (List.mem_cons_of_mem c hx))
    simp only [List.cons_append, replaceFirst, strStartsWith]
    simp [hc, hr]

theorem replaceFirst_startsWith (pat repl m : Str) (hm : m ≠ [])
    (h : strStartsWith m pat = true) :
    replaceFirst pat repl m = repl ++ List.drop pat.length m := by
  cases m with
  | nil => exact absurd rfl hm
  | cons c r => simp [replaceFirst, h]

theorem countChar_append (c : Char) (a b : Str) :
    countChar c (a ++ b) = countChar c a + countChar c b := by
  unfold countChar
  rw [List.filter_append, List.length_append]

theorem countChar_eq_zero (c : Char) (s : Str) (h : ∀ x ∈ s, ¬ x = c) :
    countChar c s = 0 := by
  have hf : s.filter (fun x => x = c) = [] := by
    rw [List.filter_eq_nil_iff]
    intro a ha
    simpa using h a ha
  unfold countChar
  rw [hf]
  rfl

theorem strEndsWith_concat (l : Str) (c : Char) : strEndsWith (l ++ [c]) [c] = true := by
  unfold strEndsWith
  rw [show (l ++ [c]).reverse = c :: l.reverse from List.reverse_concat ..]
  simp [strStartsWith]

theorem jsSplit_flatten_bodies :
    ∀ (bodies : List Str), (∀ b ∈ bodies, ∀ c ∈ b, ¬ c = tailChar) →
      jsSplit tailChar (List.flatten (bodies.map (fun b => b ++ [tailChar])))
        = bodies ++ [[]] := by
  intro bodies
  induction bodies with
  | nil => intro _; rfl
  | cons b rest ih =>
    intro h
    have hb : ∀ c ∈ b, ¬ c = tailChar := h b (List.mem_cons_self b rest)
    have hr := ih (fun x hx c hc => h x (List.mem_cons_of_mem b hx) c hc)
    rw [List.map_cons, List.flatten_cons, List.append_assoc,
      show ([tailChar] ++ List.flatten (rest.map (fun b => b ++ [tailChar])))
          = tailChar :: List.flatten (rest.map (fun b => b ++ [tailChar])) from rfl,
      jsSplit_append_sep, jsSplit_no_sep tailChar b hb, hr]
    rfl

theorem filterMap_emit_bodies :
    ∀ (bodies : List Str), (∀ b ∈ bodies, b ≠ [] ∧ jsTrim b = b) →
      bodies.filterMap emitPart = bodies.map (fun b => b ++ [tailChar]) := by
  intro bodies
  induction bodies with
  | nil => intro _; rfl
  | cons b rest ih =>
    intro h
    obtain ⟨hb1, hb2⟩ := h b (List.mem_cons_self b rest)
    have hr := ih (fun x hx => h x (List.mem_cons_of_mem b hx))
    have he : emitPart b = some (b ++ [tailChar]) := by
      unfold emitPart
      rw [hb2, if_neg hb1]
    rw [List.filterMap_cons_some he, hr, List.map_cons]

theorem countChar_flatten_bodies :
    ∀ (bodies : List Str), (∀ b ∈ bodies, ∀ c ∈ b, ¬ c = tailChar) →
      countChar tailChar (List.flatten (bodies.map (fun b => b ++ [tailChar])))
        = bodies.length := by
  intro bodies
  induction bodies with
  | nil => intro _; rfl
  | cons b rest ih =>
    intro h
    have hb : ∀ c ∈ b, ¬ c = tailChar := h b (List.mem_cons_self b rest)
    have hr := ih (fun x hx c hc => h x (List.mem_cons_of_mem b hx) c hc)
    rw [List.map_cons, List.flatten_cons, countChar_append, countChar_append,
      countChar_eq_zero tailChar b hb, hr]
    simp [countChar]
    omega

/-! ### Shape lemmas for the parser functions -/

theorem parseAck_rawMessage (m : Str) (b : BaseMessage) (na : Bool) (am : Str)
    (h : parseAckMessage m = ParseResult.ok b na am) : b.rawMessage = m := by
  simp only [parseAckMessage] at h
  split at h
  · cases h
  · split at h
    · cases h; rfl
    · cases h; rfl

theorem parseResp_rawMessage (m : Str) (b : BaseMessage) (na : Bool) (am : Str)
    (h : parseRespMessage m = ParseResult.ok b na am) : b.rawMessage = m := by
  simp only [parseRespMessage] at h
  split at h
  · cases h
  · cases h; rfl

theorem parseBuff_rawMessage (m : Str) (b : BaseMessage) (na : Bool) (am : Str)
    (h : parseBuffMessage m = ParseResult.ok b na am) : b.rawMessage = m := by
  simp only [parseBuffMessage] at h
  split at h
  · cases h; rfl
  · cases h

theorem parseAck_ok_shape (m : Str) (b : BaseMessage) (na : Bool) (am : Str)
    (h : parseAckMessage m = ParseResult.ok b na am) :
    (b.commandWord = gthbd ∧ na = true ∧
        am = generateSackMessage (some b.commandWord) (some b.fullProtocolVersion)
              (some b.countNumber))
    ∨ (¬ b.commandWord = gthbd ∧ na = false ∧ am = []) := by
  simp only [parseAckMessage] at h
  split at h
  · cases h
  · split at h
    case isTrue hg => cases h; exact Or.inl ⟨hg, rfl, rfl⟩
    case isFalse hg => cases h; exact Or.inr ⟨hg, rfl, rfl⟩

theorem parseResp_ok_shape (m : Str) (b : BaseMessage) (na : Bool) (am : Str)
    (h : parseRespMessage m = ParseResult.ok b na am) :
    na = true ∧ am = generateSackMessage none none (some b.countNumber) := by
  simp only [parseRespMessage] at h
  split at h
  · cases h
  · cases h; exact ⟨rfl, rfl⟩

theorem parseBuff_ok_shape (m : Str) (b : BaseMessage) (na : Bool) (am : Str)
    (h : parseBuffMessage m = ParseResult.ok b na am) :
    na = true ∧ am = generateSackMessage none none (some b.countNumber) := by
  simp only [parseBuffMessage] at h
  split at h
  case h_1 b2 na2 am2 heq =>
    cases h
    have := parseResp_ok_shape _ _ _ _ heq
    exact ⟨this.1, this.2⟩
  case h_2 => cases h

theorem generateSack_some (cw ver count : Str) :
    generateSackMessage (some cw) (some ver) (some count) =
      if cw ≠ [] ∧ ver ≠ [] then
        sackHead ++ cw ++ [','] ++ List.take 6 ver ++ [','] ++ jsOr count zeros4 ++ [tailChar]
      else sackHead ++ jsOr count zeros4 ++ [tailChar] := by
  unfold generateSackMessage optTruthy
  cases cw <;> cases ver <;> simp [Option.getD]

theorem generateSack_short (count : Str) :
    generateSackMessage none none (some count)
      = sackHead ++ jsOr count zeros4 ++ [tailChar] := by
  simp [generateSackMessage, optTruthy]

/-! ### Claim theorems -/

/-- C1: for every Resp frame text `+RESP:` ++ body ++ `$` whose body is free of
the terminator character, decode splits the prefix-stripped,
terminator-stripped body on commas; with fewer than 6 fields it fails with the
MalformedResp error text, and with at least 6 fields the first four fields map
positionally to commandWord, protocolVersion, deviceId and deviceName while
sendTime and sequenceNumber come from the last two fields of the split,
however many command-specific middle fields the body has. -/
theorem c1_resp_field_mapping (body : Str) (hb : ∀ c ∈ body, ¬ c = tailChar) :
    ((jsSplit ',' body).length < 6 →
      parseRespMessage (respHead ++ body ++ [tailChar]) = ParseResult.failure errBadResp) ∧
    (6 ≤ (jsSplit ',' body).length →
      ∃ na am, parseRespMessage (respHead ++ body ++ [tailChar]) = ParseResult.ok
        { frameType := FrameTy.RESP
          commandWord := (jsSplit ',' body).getD 0 []
          fullProtocolVersion := (jsSplit ',' body).getD 1 []
          uniqueId := (jsSplit ',' body).getD 2 []
          deviceName := (jsSplit ',' body).getD 3 []
          sendTime := (jsSplit ',' body).getD ((jsSplit ',' body).length - 2) []
          countNumber := (jsSplit ',' body).getD ((jsSplit ',' body).length - 1) []
          rawMessage := respHead ++ body ++ [tailChar] } na am) := by
  have hdrop : List.drop 6 (respHead ++ body ++ [tailChar]) = body ++ [tailChar] := by
    rw [List.append_assoc]
    exact List.drop_left respHead (body ++ [tailChar])
  constructor
  · intro hlt
    simp only [parseRespMessage]
    rw [hdrop, replaceFirst_body_tail tailChar body hb, if_pos hlt]
  · intro hge
    refine ⟨true, generateSackMessage none none
        (some ((jsSplit ',' body).getD ((jsSplit ',' body).length - 1) [])), ?_⟩
    simp only [parseRespMessage]
    rw [hdrop, replaceFirst_body_tail tailChar body hb, if_neg (not_lt.mpr hge)]
    simp only [jsOr_nil]

/-- Concrete 8-field Resp body used by the C1 witness. -/
def c1Body : Str := strL "GTFRI,80200A0303,865585040014007,GL33CG,0,4.3,20190517022529,0029"

/-- Witness for c1_resp_field_mapping: an 8-field body decodes with sendTime
and sequenceNumber anchored from the end. -/
theorem c1_resp_field_mapping_witness :
    (∀ c ∈ c1Body, ¬ c = tailChar) ∧ 6 ≤ (jsSplit ',' c1Body).length ∧
    ∃ na am, parseRespMessage (respHead ++ c1Body ++ [tailChar]) = ParseResult.ok
      { frameType := FrameTy.RESP
        commandWord := strL "GTFRI"
        fullProtocolVersion := strL "80200A0303"
        uniqueId := strL "865585040014007"
        deviceName := strL "GL33CG"
        sendTime := strL "20190517022529"
        countNumber := strL "0029"
        rawMessage := respHead ++ c1Body ++ [tailChar] } na am :=
  ⟨by decide, by decide, (c1_resp_field_mapping c1Body (by decide)).2 (by decide)⟩

/-- C2: a buffer that is the concatenation of N well-formed frames (non-empty,
whitespace-trimmed, terminator-free bodies each followed by one terminator)
contains exactly N terminators, and extractMessages returns exactly those N
frame texts in the original order, each ending in exactly one terminator. -/
theorem c2_extract_exact (bodies : List Str)
    (h : ∀ b ∈ bodies, b ≠ [] ∧ (∀ c ∈ b, ¬ c = tailChar) ∧ jsTrim b = b) :
    countChar tailChar (List.flatten (bodies.map (fun b => b ++ [tailChar])))
        = bodies.length ∧
    extractMessages (List.flatten (bodies.map (fun b => b ++ [tailChar])))
        = bodies.map (fun b => b ++ [tailChar]) ∧
    ∀ msg ∈ bodies.map (fun b => b ++ [tailChar]),
      countChar tailChar msg = 1 ∧ strEndsWith msg [tailChar] = true := by
  have h2 : ∀ b ∈ bodies, ∀ c ∈ b, ¬ c = tailChar := fun b hb => (h b hb).2.1
  refine ⟨countChar_flatten_bodies bodies h2, ?_, ?_⟩
  · unfold extractMessages dropTrailingEmpty
    rw [jsSplit_flatten_bodies bodies h2, List.getLast?_concat, if_pos rfl,
      List.dropLast_concat,
      filterMap_emit_bodies bodies (fun b hb => ⟨(h b hb).1, (h b hb).2.2⟩)]
  · intro msg hmsg
    obtain ⟨b, hb, rfl⟩ := List.mem_map.mp hmsg
    constructor
    · rw [countChar_append, countChar_eq_zero tailChar b (h b hb).2.1]
      rfl
    · exact strEndsWith_concat b tailChar

/-- Concrete two-frame buffer bodies used by the C2 witness. -/
def c2Bodies : List Str := [strL "+ACK:a,b,c,d,e,f", strL "+RESP:g,h,i,j,k,l"]

/-- Witness for c2_extract_exact: two concatenated frames are returned exactly
and in order. -/
theorem c2_extract_exact_witness :
    (∀ b ∈ c2Bodies, b ≠ [] ∧ (∀ c ∈ b, ¬ c = tailChar) ∧ jsTrim b = b) ∧
    (countChar tailChar (List.flatten (c2Bodies.map (fun b => b ++ [tailChar])))
        = c2Bodies.length ∧
     extractMessages (List.flatten (c2Bodies.map (fun b => b ++ [tailChar])))
        = c2Bodies.map (fun b => b ++ [tailChar]) ∧
     ∀ msg ∈ c2Bodies.map (fun b => b ++ [tailChar]),
       countChar tailChar msg = 1 ∧ strEndsWith msg [tailChar] = true) :=
  ⟨by decide, c2_extract_exact c2Bodies (by decide)⟩

/-- C3 counterexample: a successfully decoded heartbeat Ack frame whose
protocolVersion field is empty requires an ack, but the generated text is the
short form `+SACK:0029$` rather than the claimed
`+SACK:<commandWord>,<first-6-chars-of-protocolVersion>,<seq>$` form
(which here would be `+SACK:GTHBD,,0029$`). -/
theorem c3_ack_format_counterexample :
    parseAckMessage (strL "+ACK:GTHBD,,865585040014007,GL33CG,20190517022529,0029$")
      = ParseResult.ok
          { frameType := FrameTy.ACK
            commandWord := strL "GTHBD"
            fullProtocolVersion := []
            uniqueId := strL "865585040014007"
            deviceName := strL "GL33CG"
            sendTime := strL "20190517022529"
            countNumber := strL "0029"
            rawMessage := strL "+ACK:GTHBD,,865585040014007,GL33CG,20190517022529,0029$" }
          true (strL "+SACK:0029$")
    ∧ strL "+SACK:0029$" ≠ strL "+SACK:GTHBD,,0029$" := by
  constructor
  · decide
  · decide

/-- C3 amended: a successfully decoded Ack frame requires an ack if and only
if its command word is the heartbeat word; for a heartbeat Ack the ack text is
`+SACK:<commandWord>,<first-6-chars-of-protocolVersion>,<seq-or-0000>$`
provided the decoded protocolVersion is non-empty, and falls back to
`+SACK:<seq-or-0000>$` when it is empty; every successfully decoded Resp or
Buff frame requires an ack with text `+SACK:<seq-or-0000>$`; a non-heartbeat
Ack frame requires no ack; and the concrete heartbeat input from the spec
yields exactly the claimed ack text. -/
theorem c3_ack_policy_amended :
    (∀ m b na am, parseAckMessage m = ParseResult.ok b na am →
      ((na = true ↔ b.commandWord = gthbd) ∧
       (b.commandWord = gthbd → b.fullProtocolVersion ≠ [] →
         am = sackHead ++ b.commandWord ++ [','] ++ List.take 6 b.fullProtocolVersion
              ++ [','] ++ jsOr b.countNumber zeros4 ++ [tailChar]) ∧
       (b.commandWord = gthbd → b.fullProtocolVersion = [] →
         am = sackHead ++ jsOr b.countNumber zeros4 ++ [tailChar]) ∧
       (¬ b.commandWord = gthbd → na = false ∧ am = []))) ∧
    (∀ m b na am, parseRespMessage m = ParseResult.ok b na am →
      na = true ∧ am = sackHead ++ jsOr b.countNumber zeros4 ++ [tailChar]) ∧
    (∀ m b na am, parseBuffMessage m = ParseResult.ok b na am →
      na = true ∧ am = sackHead ++ jsOr b.countNumber zeros4 ++ [tailChar]) ∧
    parseMessage (strL "+ACK:GTHBD,80200A0303,865585040014007,GL33CG,20190517022529,0029$")
      = ParseResult.ok
          { frameType := FrameTy.ACK
            commandWord := strL "GTHBD"
            fullProtocolVersion := strL "80200A0303"
            uniqueId := strL "865585040014007"
            deviceName := strL "GL33CG"
            sendTime := strL "20190517022529"
            countNumber := strL "0029"
            rawMessage := strL "+ACK:GTHBD,80200A0303,865585040014007,GL33CG,20190517022529,0029$" }
          true (strL "+SACK:GTHBD,80200A,0029$") := by
  refine ⟨?_, ?_, ?_, by decide⟩
  · intro m b na am h
    rcases parseAck_ok_shape m b na am h with ⟨hg, hna, ham⟩ | ⟨hg, hna, ham⟩
    · subst hna
      refine ⟨by simp [hg], ?_, ?_, fun hng => absurd hg hng⟩
      · intro _ hv
        rw [ham, generateSack_some,
          if_pos ⟨by rw [hg]; decide, hv⟩]
      · intro _ hv
        rw [ham, generateSack_some,
          if_neg (by intro hcontra; exact hcontra.2 hv)]
    · subst hna
      refine ⟨by simp [hg], fun hcw => absurd hcw hg, fun hcw => absurd hcw hg,
        fun _ => ⟨rfl, ham⟩⟩
  · intro m b na am h
    have := parseResp_ok_shape m b na am h
    rw [generateSack_short] at this
    exact this
  · intro m b na am h
    have := parseBuff_ok_shape m b na am h
    rw [generateSack_short] at this
    exact this

/-- Witness for c3_ack_policy_amended: a concrete Resp frame requires an ack
with the short `+SACK:<seq>$` form. -/
theorem c3_ack_policy_amended_witness :
    parseRespMessage (strL "+RESP:GTFRI,80200A0303,865585040014007,GL33CG,0,20190517022529,0029$")
      = ParseResult.ok
          { frameType := FrameTy.RESP
            commandWord := strL "GTFRI"
            fullProtocolVersion := strL "80200A0303"
            uniqueId := strL "865585040014007"
            deviceName := strL "GL33CG"
            sendTime := strL "20190517022529"
            countNumber := strL "0029"
            rawMessage := strL "+RESP:GTFRI,80200A0303,865585040014007,GL33CG,0,20190517022529,0029$" }
          true (strL "+SACK:0029$")
    ∧ (true = true ∧ strL "+SACK:0029$"
        = sackHead ++ jsOr (strL "0029") zeros4 ++ [tailChar]) :=
  ⟨by decide, c3_ack_policy_amended.2.1
      (strL "+RESP:GTFRI,80200A0303,865585040014007,GL33CG,0,20190517022529,0029$")
      { frameType := FrameTy.RESP
        commandWord := strL "GTFRI"
        fullProtocolVersion := strL "80200A0303"
        uniqueId := strL "865585040014007"
        deviceName := strL "GL33CG"
        sendTime := strL "20190517022529"
        countNumber := strL "0029"
        rawMessage := strL "+RESP:GTFRI,80200A0303,865585040014007,GL33CG,0,20190517022529,0029$" }
      true (strL "+SACK:0029$") (by decide)⟩

/-- C4: re-decoding rawMessage of a successfully decoded frame succeeds and
yields the same message, needsAck flag and ack text, for Ack, Resp and Buff
frames alike. -/
theorem c4_decode_roundTrip (raw : Str) (b : BaseMessage) (na : Bool) (am : Str)
    (h : parseMessage raw = ParseResult.ok b na am) :
    parseMessage b.rawMessage = ParseResult.ok b na am := by
  simp only [parseMessage] at h
  split at h
  case isFalse => cases h
  case isTrue hEnd =>
    cases hid : identifyFrameType (jsTrim raw) with
    | none => rw [hid] at h; cases h
    | some ft =>
      rw [hid] at h
      have hgoal : b.rawMessage = jsTrim raw → parseMessage (jsTrim raw)
          = ParseResult.ok b na am := by
        intro hraw
        simp only [parseMessage]
        rw [jsTrim_idem, if_pos hEnd, hid]
        cases ft with
        | ACK => exact h
        | RESP => exact h
        | BUFF => exact h
        | SACK => exact h
      cases ft with
      | ACK =>
        have hraw := parseAck_rawMessage _ _ _ _ h
        rw [hraw]; exact hgoal hraw
      | RESP =>
        have hraw := parseResp_rawMessage _ _ _ _ h
        rw [hraw]; exact hgoal hraw
      | BUFF =>
        have hraw := parseBuff_rawMessage _ _ _ _ h
        rw [hraw]; exact hgoal hraw
      | SACK => cases h

/-- Witness for c4_decode_roundTrip: a heartbeat Ack with leading whitespace
decodes, and re-decoding its rawMessage gives the identical result. -/
theorem c4_decode_roundTrip_witness :
    parseMessage (strL " +ACK:GTHBD,80200A0303,865585040014007,GL33CG,20190517022529,0029$")
      = ParseResult.ok
          { frameType := FrameTy.ACK
            commandWord := strL "GTHBD"
            fullProtocolVersion := strL "80200A0303"
            uniqueId := strL "865585040014007"
            deviceName := strL "GL33CG"
            sendTime := strL "20190517022529"
            countNumber := strL "0029"
            rawMessage := strL "+ACK:GTHBD,80200A0303,865585040014007,GL33CG,20190517022529,0029$" }
          true (strL "+SACK:GTHBD,80200A,0029$")
    ∧ parseMessage (strL "+ACK:GTHBD,80200A0303,865585040014007,GL33CG,20190517022529,0029$")
      = ParseResult.ok
          { frameType := FrameTy.ACK
            commandWord := strL "GTHBD"
            fullProtocolVersion := strL "80200A0303"
            uniqueId := strL "865585040014007"
            deviceName := strL "GL33CG"
            sendTime := strL "20190517022529"
            countNumber := strL "0029"
            rawMessage := strL "+ACK:GTHBD,80200A0303,865585040014007,GL33CG,20190517022529,0029$" }
          true (strL "+SACK:GTHBD,80200A,0029$") :=
  ⟨by decide, c4_decode_roundTrip
      (strL " +ACK:GTHBD,80200A0303,865585040014007,GL33CG,20190517022529,0029$")
      { frameType := FrameTy.ACK
        commandWord := strL "GTHBD"
        fullProtocolVersion := strL "80200A0303"
        uniqueId := strL "865585040014007"
        deviceName := strL "GL33CG"
        sendTime := strL "20190517022529"
        countNumber := strL "0029"
        rawMessage := strL "+ACK:GTHBD,80200A0303,865585040014007,GL33CG,20190517022529,0029$" }
      true (strL "+SACK:GTHBD,80200A,0029$") (by decide)⟩

/-- C5: once the session's imei has been set to a non-empty identifier,
processing any further frame — whatever identifier it reports — leaves imei
and deviceName unchanged (first-writer-wins). -/
theorem c5_first_writer_wins (enableSack : Bool) (now : Nat) (msg : Str)
    (c : ConnectedClient) (s : Str) (h1 : c.imei = some s) (h2 : s ≠ []) :
    (processMessageFull enableSack now msg c).1.imei = c.imei ∧
    (processMessageFull enableSack now msg c).1.deviceName = c.deviceName := by
  have ht : optTruthy c.imei = true := by
    rw [h1]
    cases s with
    | nil => exact absurd rfl h2
    | cons a t => rfl
  simp only [processMessageFull]
  cases hp : parseMessage msg with
  | failure e => exact ⟨rfl, rfl⟩
  | ok m na am =>
    simp only [ht, Bool.not_true, Bool.and_false]
    constructor
    · split <;> rfl
    · split <;> rfl

/-- Witness for c5_first_writer_wins: a session identified as one device
processes a frame reporting a different identifier without changing imei or
deviceName. -/
theorem c5_first_writer_wins_witness :
    ({ imei := some (strL "865585040014007"), deviceName := some (strL "GL33CG")
       lastHeartbeat := 0, connected := 0, messageCount := 3,
       isAlive := true } : ConnectedClient).imei = some (strL "865585040014007") ∧
    strL "865585040014007" ≠ [] ∧
    ((processMessageFull true 7 (strL "+ACK:GTHBD,80200A0303,999999999999999,OTHER,20190517022529,0030$")
        { imei := some (strL "865585040014007"), deviceName := some (strL "GL33CG")
          lastHeartbeat := 0, connected := 0, messageCount := 3,
          isAlive := true }).1.imei = some (strL "865585040014007") ∧
     (processMessageFull true 7 (strL "+ACK:GTHBD,80200A0303,999999999999999,OTHER,20190517022529,0030$")
        { imei := some (strL "865585040014007"), deviceName := some (strL "GL33CG")
          lastHeartbeat := 0, connected := 0, messageCount := 3,
          isAlive := true }).1.deviceName = some (strL "GL33CG")) :=
  ⟨rfl, by decide,
    c5_first_writer_wins true 7
      (strL "+ACK:GTHBD,80200A0303,999999999999999,OTHER,20190517022529,0030$")
      { imei := some (strL "865585040014007"), deviceName := some (strL "GL33CG")
        lastHeartbeat := 0, connected := 0, messageCount := 3, isAlive := true }
      (strL "865585040014007") rfl (by decide)⟩

/-- C6 counterexample: in a single read, a non-empty fragment after the last
terminator is not retained — extractMessages hands it onward with a fabricated
appended terminator ("abc" becomes the frame text "abc$"), and a read that
contains no terminator at all is discarded entirely rather than retained. -/
theorem c6_partial_bytes_counterexample :
    handleClientDataMessages (strL "+ACK:x$abc") = [strL "+ACK:x$", strL "abc$"] ∧
    handleClientDataMessages (strL "+RESP:GTFRI,truncated") = [] := by
  constructor
  · decide
  · decide

/-- C6 amended: trailing partial bytes are NOT retained; a received buffer
containing no terminator at all is skipped whole (its bytes are dropped, not
buffered), and in a buffer that does contain a terminator any non-empty,
terminator-free, trimmed trailing fragment is emitted as one further frame
text with a terminator appended, and is thus handed to the decoder as if
complete. -/
theorem c6_partial_bytes_amended :
    (∀ data : Str, isMessageComplete (jsTrim data) = false →
      handleClientDataMessages data = []) ∧
    (∀ pre frag : Str, frag ≠ [] → (∀ c ∈ frag, ¬ c = tailChar) → jsTrim frag = frag →
      extractMessages (pre ++ tailChar :: frag)
        = extractMessages (pre ++ [tailChar]) ++ [frag ++ [tailChar]]) := by
  constructor
  · intro data h
    simp [handleClientDataMessages, h]
  · intro pre frag h1 h2 h3
    have hs1 : jsSplit tailChar (pre ++ tailChar :: frag) = jsSplit tailChar pre ++ [frag] := by
      rw [jsSplit_append_sep, jsSplit_no_sep tailChar frag h2]
    have hs2 : jsSplit tailChar (pre ++ [tailChar]) = jsSplit tailChar pre ++ [[]] := by
      rw [show pre ++ [tailChar] = pre ++ tailChar :: [] from rfl, jsSplit_append_sep]
      rfl
    unfold extractMessages dropTrailingEmpty
    rw [hs1, hs2, List.getLast?_concat, List.getLast?_concat,
      if_neg (by simpa using h1), if_pos rfl, List.dropLast_concat,
      List.filterMap_append]
    congr 1
    have he : emitPart frag = some (frag ++ [tailChar]) := by
      unfold emitPart
      rw [h3, if_neg h1]
    rw [List.filterMap_cons_some he]
    rfl

/-- Witness for c6_partial_bytes_amended: a terminator-free read is dropped,
and the fragment "abc" after a complete frame is emitted as the frame "abc$". -/
theorem c6_partial_bytes_amended_witness :
    (isMessageComplete (jsTrim (strL "+RESP:GTFRI,truncated")) = false ∧
     handleClientDataMessages (strL "+RESP:GTFRI,truncated") = []) ∧
    extractMessages (strL "+ACK:x" ++ tailChar :: strL "abc")
      = extractMessages (strL "+ACK:x" ++ [tailChar]) ++ [strL "abc" ++ [tailChar]] :=
  ⟨⟨by decide, c6_partial_bytes_amended.1 (strL "+RESP:GTFRI,truncated") (by decide)⟩,
    c6_partial_bytes_amended.2 (strL "+ACK:x") (strL "abc") (by decide) (by decide) (by decide)⟩

/-- C7: decode errors are frame-local — a frame whose decode fails contributes
no client mutation (no messageCount increment, no identity change, no removal)
and no ack, and processing continues with the remaining frames exactly as if
the failing frame were absent. -/
theorem c7_decode_error_frame_local (enableSack : Bool) (now : Nat) (bad err : Str)
    (hbad : parseMessage bad = ParseResult.failure err) (pre post : List Str)
    (c : ConnectedClient) :
    processMessages enableSack now (pre ++ bad :: post) c
      = processMessages enableSack now (pre ++ post) c := by
  induction pre generalizing c with
  | nil =>
    simp only [List.nil_append, processMessages, processMessageFull, hbad]
    simp
  | cons m pre ih =>
    show processMessages enableSack now (m :: (pre ++ bad :: post)) c
        = processMessages enableSack now (m :: (pre ++ post)) c
    simp only [processMessages]
    rw [ih]

/-- Witness for c7_decode_error_frame_local: a buffer with a malformed middle
frame processes exactly like the buffer without it. -/
theorem c7_decode_error_frame_local_witness :
    parseMessage (strL "garbage$") = ParseResult.failure errUnknownFrame ∧
    processMessages true 0
        ([strL "+ACK:GTHBD,80200A0303,865585040014007,GL33CG,20190517022529,0029$"]
          ++ strL "garbage$"
            :: [strL "+RESP:GTFRI,80200A0303,865585040014007,GL33CG,0,20190517022529,0030$"])
        { imei := none, deviceName := none, lastHeartbeat := 0, connected := 0
          messageCount := 0, isAlive := true }
      = processMessages true 0
        ([strL "+ACK:GTHBD,80200A0303,865585040014007,GL33CG,20190517022529,0029$"]
          ++ [strL "+RESP:GTFRI,80200A0303,865585040014007,GL33CG,0,20190517022529,0030$"])
        { imei := none, deviceName := none, lastHeartbeat := 0, connected := 0
          messageCount := 0, isAlive := true } :=
  ⟨by decide, c7_decode_error_frame_local true 0 (strL "garbage$") errUnknownFrame (by decide)
      [strL "+ACK:GTHBD,80200A0303,865585040014007,GL33CG,20190517022529,0029$"]
      [strL "+RESP:GTFRI,80200A0303,865585040014007,GL33CG,0,20190517022529,0030$"]
      { imei := none, deviceName := none, lastHeartbeat := 0, connected := 0
        messageCount := 0, isAlive := true }⟩

/-- C8: a new connection arriving while the registry already holds
maxConnections sessions is refused — the registry is unchanged, no session is
created or registered, no HTTP reply is written, no frame is handed to the
decoder and no ack is sent. -/
theorem c8_capacity_refusal (enableSack : Bool) (maxConnections now : Nat)
    (reg : List (Str × ConnectedClient)) (clientId data : Str)
    (h : reg.length = maxConnections) :
    handleConnectionFirstData enableSack maxConnections now reg clientId data
      = { registry := reg, sessionCreated := false, httpReplied := false
          processed := [], acks := [] } := by
  unfold handleConnectionFirstData
  rw [if_pos (le_of_eq h.symm)]

/-- Witness for c8_capacity_refusal: with maxConnections = 1 and one live
session, a further connection carrying a valid frame is refused untouched. -/
theorem c8_capacity_refusal_witness :
    ([(strL "10.0.0.1:5000",
        { imei := some (strL "865585040014007"), deviceName := some (strL "GL33CG")
          lastHeartbeat := 0, connected := 0, messageCount := 5, isAlive := true })]
      : List (Str × ConnectedClient)).length = 1 ∧
    handleConnectionFirstData true 1 9
        [(strL "10.0.0.1:5000",
          { imei := some (strL "865585040014007"), deviceName := some (strL "GL33CG")
            lastHeartbeat := 0, connected := 0, messageCount := 5, isAlive := true })]
        (strL "10.0.0.2:6000")
        (strL "+ACK:GTHBD,80200A0303,999999999999999,GL33CG,20190517022529,0001$")
      = { registry := [(strL "10.0.0.1:5000",
            { imei := some (strL "865585040014007"), deviceName := some (strL "GL33CG")
              lastHeartbeat := 0, connected := 0, messageCount := 5, isAlive := true })]
          sessionCreated := false, httpReplied := false, processed := [], acks := [] } :=
  ⟨rfl, c8_capacity_refusal true 1 9
      [(strL "10.0.0.1:5000",
        { imei := some (strL "865585040014007"), deviceName := some (strL "GL33CG")
          lastHeartbeat := 0, connected := 0, messageCount := 5, isAlive := true })]
      (strL "10.0.0.2:6000")
      (strL "+ACK:GTHBD,80200A0303,999999999999999,GL33CG,20190517022529,0001$") rfl⟩

/-- C9: for every frame text beginning with the Buff token, parseBuffMessage
equals decoding the text with the Buff token substituted by the Resp token and
then overriding the kind back to Buff and the raw text back to the original
text; in particular failures carry exactly the Resp decoder's error and a Buff
decode succeeds if and only if the Resp-shaped decode does. -/
theorem c9_buff_resp_equivalence (m : Str) (h : strStartsWith m buffHead = true) :
    parseBuffMessage m = buffViaRespSpec m ∧
    (parseBuffMessage m).isOk = (parseRespMessage (respHead ++ List.drop 6 m)).isOk := by
  have hm : m ≠ [] := by
    intro hnil
    rw [hnil] at h
    exact absurd h (by decide)
  have hr : replaceFirst buffHead respHead m = respHead ++ List.drop 6 m := by
    rw [replaceFirst_startsWith buffHead respHead m hm h,
      show List.length buffHead = 6 from by decide]
  have h1 : parseBuffMessage m = buffViaRespSpec m := by
    unfold parseBuffMessage buffViaRespSpec
    rw [hr]
  refine ⟨h1, ?_⟩
  rw [h1]
  unfold buffViaRespSpec
  cases parseRespMessage (respHead ++ List.drop 6 m) <;> rfl

/-- Witness for c9_buff_resp_equivalence at a concrete Buff frame. -/
theorem c9_buff_resp_equivalence_witness :
    strStartsWith (strL "+BUFF:GTFRI,80200A0303,865585040014007,GL33CG,0,20190517022529,0031$")
        buffHead = true ∧
    (parseBuffMessage (strL "+BUFF:GTFRI,80200A0303,865585040014007,GL33CG,0,20190517022529,0031$")
        = buffViaRespSpec (strL "+BUFF:GTFRI,80200A0303,865585040014007,GL33CG,0,20190517022529,0031$") ∧
     (parseBuffMessage (strL "+BUFF:GTFRI,80200A0303,865585040014007,GL33CG,0,20190517022529,0031$")).isOk
        = (parseRespMessage (respHead ++ List.drop 6
            (strL "+BUFF:GTFRI,80200A0303,865585040014007,GL33CG,0,20190517022529,0031$"))).isOk) :=
  ⟨by decide, c9_buff_resp_equivalence
      (strL "+BUFF:GTFRI,80200A0303,865585040014007,GL33CG,0,20190517022529,0031$") (by decide)⟩

/-- C10: every string returned by extractMessages ends with the terminator,
contains the terminator only as its final character, carries no leading or
trailing whitespace (it is trim-invariant), and has at least one character
before the terminator — so no element is empty or a bare terminator. -/
theorem c10_extract_wellFormed (buffer msg : Str) (h : msg ∈ extractMessages buffer) :
    strEndsWith msg [tailChar] = true ∧ countChar tailChar msg = 1 ∧
    jsTrim msg = msg ∧ 2 ≤ msg.length := by
  unfold extractMessages at h
  obtain ⟨p, hp, hep⟩ := List.mem_filterMap.mp h
  have hpmem : p ∈ jsSplit tailChar buffer := by
    unfold dropTrailingEmpty at hp
    by_cases hcond : (jsSplit tailChar buffer).getLast? = some ([] : Str)
    · rw [if_pos hcond] at hp
      exact (List.dropLast_sublist _).mem hp
    · rw [if_neg hcond] at hp
      exact hp
  have hnosep : ∀ c ∈ p, ¬ c = tailChar := jsSplit_mem_no_sep tailChar buffer p hpmem
  unfold emitPart at hep
  by_cases hn : jsTrim p = []
  · rw [if_pos hn] at hep
    cases hep
  · rw [if_neg hn] at hep
    have hmsg : msg = jsTrim p ++ [tailChar] := (Option.some.injEq _ _ ▸ hep).symm
    subst hmsg
    refine ⟨strEndsWith_concat (jsTrim p) tailChar, ?_, ?_, ?_⟩
    · rw [countChar_append,
        countChar_eq_zero tailChar (jsTrim p) (fun x hx => hnosep x (mem_jsTrim p x hx))]
      rfl
    · exact jsTrim_append_nonWs (jsTrim p) tailChar (jsTrim_dropWhile p) hn wsChar_tail
    · rw [List.length_append]
      have := List.length_pos.mpr hn
      simp only [List.length_cons, List.length_nil]
      omega

/-- Witness for c10_extract_wellFormed at a concrete one-frame buffer. -/
theorem c10_extract_wellFormed_witness :
    strL "+ACK:x$" ∈ extractMessages (strL "+ACK:x$") ∧
    (strEndsWith (strL "+ACK:x$") [tailChar] = true ∧
     countChar tailChar (strL "+ACK:x$") = 1 ∧
     jsTrim (strL "+ACK:x$") = strL "+ACK:x$" ∧ 2 ≤ (strL "+ACK:x$").length) :=
  ⟨by decide, c10_extract_wellFormed (strL "+ACK:x$") (strL "+ACK:x$") (by decide)⟩
